import Mathlib

set_option autoImplicit false

/-!
Verification of the TTS playback controller and synthesis relay endpoint of
the webapp-sk-gpt repository, embedded shallowly from
`src/components/OpenAITTS.tsx` and `src/app/api/chat/route.ts`
(the `generate-tts` POST handler).

Text is modelled as `List Char` (a JS string is a sequence of code units).
Each JS `String.replace` pass of `convertMarkdownToPlainText` is embedded as
a fueled left-to-right scanner implementing the exact leftmost / greedy
(or lazy, for the code-fence pattern) semantics of its regular expression;
fuel is one more than the input length, which always suffices because each
step consumes at least one input character.
-/

/-- The characters the source's `\s` regex class matches (ASCII part; the
claims involve no exotic Unicode whitespace). -/
def jsWs (c : Char) : Bool :=
  c = ' ' || c = '\t' || c = '\n' || c = '\r' || c = '\x0b' || c = '\x0c'

/-- Pass `.replace(/#{1,6}\s+/g, '')`: at each position, a run of 1..6 `#`
followed by at least one whitespace char is deleted together with the
(greedy) whitespace run; runs longer than 6 `#` fail at this position and
the scanner advances one character, exactly as the backtracking engine does. -/
def stripHeadersAux : Nat → List Char → List Char
  | 0, l => l
  | _ + 1, [] => []
  | fuel + 1, c :: rest =>
    if c = '#' then
      let hashes := (c :: rest).takeWhile (fun d => d = '#')
      let after := (c :: rest).drop hashes.length
      let ws := after.takeWhile jsWs
      if hashes.length ≤ 6 && !ws.isEmpty then
        stripHeadersAux fuel (after.drop ws.length)
      else
        c :: stripHeadersAux fuel rest
    else
      c :: stripHeadersAux fuel rest

/-- Pass `.replace(/\*\*([^*]+)\*\*/g, '$1')`: `**`, a nonempty run of
non-asterisks, `**`; the inner text is kept. -/
def stripBoldAux : Nat → List Char → List Char
  | 0, l => l
  | _ + 1, [] => []
  | fuel + 1, c :: rest =>
    match c, rest with
    | '*', '*' :: rest2 =>
      let inner := rest2.takeWhile (fun d => d ≠ '*')
      let after := rest2.drop inner.length
      if !inner.isEmpty && after.take 2 = ['*', '*'] then
        inner ++ stripBoldAux fuel (after.drop 2)
      else
        '*' :: stripBoldAux fuel rest
    | _, _ => c :: stripBoldAux fuel rest

/-- Passes `.replace(/\*([^*]+)\*/g, '$1')` and `.replace(/`([^`]+)`/g, '$1')`:
a delimiter `d`, a nonempty run of non-`d` characters, `d`; inner kept. -/
def unwrapDelimAux (d : Char) : Nat → List Char → List Char
  | 0, l => l
  | _ + 1, [] => []
  | fuel + 1, c :: rest =>
    if c = d then
      let inner := rest.takeWhile (fun e => e ≠ d)
      let after := rest.drop inner.length
      if !inner.isEmpty && after.take 1 = [d] then
        inner ++ unwrapDelimAux d fuel (after.drop 1)
      else
        c :: unwrapDelimAux d fuel rest
    else
      c :: unwrapDelimAux d fuel rest

/-- The backtick character (code point 96). -/
def backtick : Char := Char.ofNat 96

/-- Index of the earliest occurrence of three consecutive backticks. -/
def findTriple : List Char → Option Nat
  | [] => none
  | c :: rest =>
    if (c :: rest).take 3 = [backtick, backtick, backtick] then some 0
    else (findTriple rest).map (fun n => n + 1)

/-- Pass `.replace(/```[\s\S]*?```/g, '[Code]')`: three backticks, the lazily
shortest body, three backticks, all replaced by the literal `[Code]`. -/
def stripFencesAux : Nat → List Char → List Char
  | 0, l => l
  | _ + 1, [] => []
  | fuel + 1, c :: rest =>
    if (c :: rest).take 3 = [backtick, backtick, backtick] then
      match findTriple ((c :: rest).drop 3) with
      | some j =>
        '[' :: 'C' :: 'o' :: 'd' :: 'e' :: ']' ::
          stripFencesAux fuel ((c :: rest).drop (3 + j + 3))
      | none => c :: stripFencesAux fuel rest
    else
      c :: stripFencesAux fuel rest

/-- Pass `.replace(/\[([^\]]+)\]\([^)]+\)/g, '$1')`: link syntax unwrapped to the
nonempty link text, the target discarded. -/
def stripLinksAux : Nat → List Char → List Char
  | 0, l => l
  | _ + 1, [] => []
  | fuel + 1, c :: rest =>
    if c = '[' then
      let txt := rest.takeWhile (fun e => e ≠ ']')
      let after := rest.drop txt.length
      match after with
      | ']' :: '(' :: rest2 =>
        let url := rest2.takeWhile (fun e => e ≠ ')')
        let after2 := rest2.drop url.length
        if !txt.isEmpty && !url.isEmpty && after2.take 1 = [')'] then
          txt ++ stripLinksAux fuel (after2.drop 1)
        else
          c :: stripLinksAux fuel rest
      | _ => c :: stripLinksAux fuel rest
    else
      c :: stripLinksAux fuel rest

def bulletChar (c : Char) : Bool := c = '-' || c = '*' || c = '+'

/-- Pass `.replace(/^\s*[-*+]\s+/gm, '• ')`: with the `m` flag, `^` holds at the
string start and right after a newline; `\s*`, a bullet character and `\s+`
are replaced by a bullet glyph and a space. The scanner's `atStart` flag
records whether the previously consumed character was a newline. -/
def listMarkersAux : Nat → Bool → List Char → List Char
  | 0, _, l => l
  | _ + 1, _, [] => []
  | fuel + 1, atStart, c :: rest =>
    if atStart then
      let ws := (c :: rest).takeWhile jsWs
      let after := (c :: rest).drop ws.length
      match after with
      | b :: rest2 =>
        if bulletChar b then
          let ws2 := rest2.takeWhile jsWs
          if !ws2.isEmpty then
            '•' :: ' ' ::
              listMarkersAux fuel (ws2.getLast? == some '\n') (rest2.drop ws2.length)
          else c :: listMarkersAux fuel (c = '\n') rest
        else c :: listMarkersAux fuel (c = '\n') rest
      | [] => c :: listMarkersAux fuel (c = '\n') rest
    else c :: listMarkersAux fuel (c = '\n') rest

/-- Pass `.replace(/^\s*\d+\.\s+/gm, '')`: numbered-list markers deleted. -/
def numberedAux : Nat → Bool → List Char → List Char
  | 0, _, l => l
  | _ + 1, _, [] => []
  | fuel + 1, atStart, c :: rest =>
    if atStart then
      let ws := (c :: rest).takeWhile jsWs
      let after := (c :: rest).drop ws.length
      let digits := after.takeWhile Char.isDigit
      let after2 := after.drop digits.length
      match after2 with
      | '.' :: rest2 =>
        if !digits.isEmpty then
          let ws2 := rest2.takeWhile jsWs
          if !ws2.isEmpty then
            numberedAux fuel (ws2.getLast? == some '\n') (rest2.drop ws2.length)
          else c :: numberedAux fuel (c = '\n') rest
        else c :: numberedAux fuel (c = '\n') rest
      | _ => c :: numberedAux fuel (c = '\n') rest
    else c :: numberedAux fuel (c = '\n') rest

/-- Pass `.replace(/^\s*>\s+/gm, '')`: blockquote markers deleted. -/
def quotesAux : Nat → Bool → List Char → List Char
  | 0, _, l => l
  | _ + 1, _, [] => []
  | fuel + 1, atStart, c :: rest =>
    if atStart then
      let ws := (c :: rest).takeWhile jsWs
      let after := (c :: rest).drop ws.length
      match after with
      | '>' :: rest2 =>
        let ws2 := rest2.takeWhile jsWs
        if !ws2.isEmpty then
          quotesAux fuel (ws2.getLast? == some '\n') (rest2.drop ws2.length)
        else c :: quotesAux fuel (c = '\n') rest
      | _ => c :: quotesAux fuel (c = '\n') rest
    else c :: quotesAux fuel (c = '\n') rest

/-- Pass `.replace(/\n{2,}/g, ' ')`: runs of two or more newlines become one space. -/
def collapseNewlinesAux : Nat → List Char → List Char
  | 0, l => l
  | _ + 1, [] => []
  | fuel + 1, c :: rest =>
    if c = '\n' then
      let run := (c :: rest).takeWhile (fun d => d = '\n')
      if 2 ≤ run.length then
        ' ' :: collapseNewlinesAux fuel ((c :: rest).drop run.length)
      else c :: collapseNewlinesAux fuel rest
    else c :: collapseNewlinesAux fuel rest

/-- Pass `.replace(/\s+/g, ' ')`: every whitespace run becomes one space. -/
def collapseSpacesAux : Nat → List Char → List Char
  | 0, l => l
  | _ + 1, [] => []
  | fuel + 1, c :: rest =>
    if jsWs c then
      ' ' :: collapseSpacesAux fuel (rest.dropWhile jsWs)
    else c :: collapseSpacesAux fuel rest

/-- Pass `.trim()`. -/
def trimWs (l : List Char) : List Char :=
  ((l.dropWhile jsWs).reverse.dropWhile jsWs).reverse

def runPass (f : Nat → List Char → List Char) (l : List Char) : List Char :=
  f (l.length + 1) l

def runPassM (f : Nat → Bool → List Char → List Char) (l : List Char) : List Char :=
  f (l.length + 1) true l

/-- Function `convertMarkdownToPlainText` from `OpenAITTS.tsx`: the eleven `replace`
passes in source order, then `trim()`. -/
def convertMarkdownToPlainText (l : List Char) : List Char :=
  trimWs (runPass collapseSpacesAux (runPass collapseNewlinesAux
    (runPassM quotesAux (runPassM numberedAux (runPassM listMarkersAux
      (runPass stripLinksAux (runPass stripFencesAux
        (runPass (unwrapDelimAux backtick) (runPass (unwrapDelimAux '*')
          (runPass stripBoldAux (runPass stripHeadersAux l)))))))))))

/-!
Speech request construction (client side, `startNewTTS`)
-/

/-- The literal suffix `'...'` appended when the text is cut at 4096. -/
def truncationMarker : List Char := ['.', '.', '.']

/-- Source: `textToSpeak.length > 4096 ? textToSpeak.substring(0, 4096) + '...' : textToSpeak` -/
def limitText (t : List Char) : List Char :=
  if 4096 < t.length then t.take 4096 ++ truncationMarker else t

/-- The configuration inputs of the `OpenAITTS` component: source text,
markdown flag, streaming-suppression flag, and the selected voice's name. -/
structure TtsConfig where
  content : List Char
  isMarkdown : Bool
  isStreaming : Bool
  voice : String
deriving DecidableEq, Repr

/-- Source: `isMarkdown ? convertMarkdownToPlainText(content) : content` -/
def normalizedText (cfg : TtsConfig) : List Char :=
  if cfg.isMarkdown then convertMarkdownToPlainText cfg.content else cfg.content

/-- The JSON body `{ text: limitedText, voiceName: selectedVoice.name }`
posted to `/api/generate-tts`. -/
structure SpeechRequest where
  text : List Char
  voiceName : String
deriving DecidableEq, Repr

def buildSpeechRequest (cfg : TtsConfig) : SpeechRequest :=
  { text := limitText (normalizedText cfg), voiceName := cfg.voice }

/-!
Playback controller state machine (`OpenAITTS.tsx`)

The component's handlers (`generateTTS`, `startNewTTS`, `stopTTS`, the audio
element callbacks, and the 3-second error-reset timer callback) are embedded
as a labelled transition system. Object URLs are identified by allocation
order (`nextUrl`); `created`/`revoked` log every `URL.createObjectURL` /
`URL.revokeObjectURL` call. Audio-element events are delivered only for the
currently referenced audio (`audioRef`); `pendingFetch`/`pendingPlay` mark
the in-flight `fetch` and the awaited initial `audio.play()` whose
rejection is handled by the `catch` block of `startNewTTS`.
-/

inductive TtsStatus
  | idle | generating | loading | playing | paused | error
deriving DecidableEq, Repr

structure TtsState where
  status : TtsStatus
  progress : String
  audioRef : Option Nat
  pendingFetch : Bool
  pendingPlay : Bool
  timers : Nat
  requests : Nat
  nextUrl : Nat
  created : List Nat
  revoked : List Nat
deriving DecidableEq, Repr

def initState : TtsState :=
  { status := .idle, progress := "", audioRef := none, pendingFetch := false,
    pendingPlay := false, timers := 0, requests := 0, nextUrl := 0,
    created := [], revoked := [] }

/-- The delay of the `setTimeout` arming the automatic error → idle reset. -/
def errorResetDelayMs : Nat := 3000

/-- Predicate for `!content.trim()` being falsy, i.e. the trimmed content is nonempty. -/
def contentSpeakable (cfg : TtsConfig) : Bool :=
  !(trimWs cfg.content).isEmpty

/-- Handler `stopTTS`: pause the audio, drop the handle, status idle, clear the
progress message. No `URL.revokeObjectURL` call appears in the source. -/
def stopTTS (s : TtsState) : TtsState :=
  { s with audioRef := none, status := .idle, progress := "" }

/-- The synchronous head of `startNewTTS` up to the awaited `fetch`: set
status generating, set the progress message, pause and drop any previous
audio handle (again without revoking its URL), and issue the request. -/
def startNewTTS (s : TtsState) : TtsState :=
  { s with
    status := .generating
    progress := "Audio genereren..."
    audioRef := none
    requests := s.requests + 1
    pendingFetch := true }

/-- Handler `generateTTS`: the speak entry point. -/
def generateTTS (cfg : TtsConfig) (s : TtsState) : TtsState :=
  if cfg.isStreaming = true ∨ contentSpeakable cfg = false then s
  else if s.status = .playing ∧ s.audioRef.isSome = true then
    { s with status := .paused }
  else if s.status = .paused ∧ s.audioRef.isSome = true then
    { s with status := .playing }
  else startNewTTS s

/-- The speak button's `disabled` attribute:
`isStreaming || ttsStatus === 'generating' || ttsStatus === 'loading'`. -/
def speakDisabled (cfg : TtsConfig) (s : TtsState) : Bool :=
  cfg.isStreaming || s.status == .generating || s.status == .loading

inductive TtsEvent
  | speakClick
  | stopClick
  | fetchOk
  | fetchFail
  | playOk
  | playRejected
  | audioEnded
  | audioError
  | errorTimerFire
deriving DecidableEq, Repr

/-- One transition of the controller. Events whose guard does not hold
(e.g. a stop click while the stop button is not rendered, or a timer fire
with no pending timer) leave the state unchanged. -/
def step (cfg : TtsConfig) (s : TtsState) : TtsEvent → TtsState
  | .speakClick =>
    if speakDisabled cfg s = true then s else generateTTS cfg s
  | .stopClick =>
    if s.status = .playing ∨ s.status = .paused then stopTTS s else s
  | .fetchOk =>
    if s.pendingFetch = true then
      { s with
        status := .loading
        progress := "Audio laden..."
        audioRef := some s.nextUrl
        created := s.created ++ [s.nextUrl]
        nextUrl := s.nextUrl + 1
        pendingFetch := false
        pendingPlay := true }
    else s
  | .fetchFail =>
    if s.pendingFetch = true then
      { s with
        status := .error
        progress := "Er is een fout opgetreden"
        timers := s.timers + 1
        pendingFetch := false }
    else s
  | .playOk =>
    if s.audioRef.isSome = true then
      { s with
        status := .playing
        progress := "" }
    else s
  | .playRejected =>
    if s.pendingPlay = true then
      { s with
        status := .error
        progress := "Er is een fout opgetreden"
        timers := s.timers + 1
        pendingPlay := false }
    else s
  | .audioEnded =>
    match s.audioRef with
    | some u =>
      { s with
        status := .idle
        audioRef := none
        progress := ""
        revoked := s.revoked ++ [u] }
    | none => s
  | .audioError =>
    match s.audioRef with
    | some u =>
      { s with
        status := .error
        progress := "Afspeel fout"
        timers := s.timers + 1
        audioRef := none
        revoked := s.revoked ++ [u] }
    | none => s
  | .errorTimerFire =>
    if 0 < s.timers then
      { s with
        timers := s.timers - 1
        status := .idle
        progress := "" }
    else s

def run (cfg : TtsConfig) (evs : List TtsEvent) : TtsState :=
  evs.foldl (step cfg) initState

/-- The states the controller can actually be in. -/
inductive Reachable (cfg : TtsConfig) : TtsState → Prop
  | init : Reachable cfg initState
  | step {s : TtsState} (e : TtsEvent) :
      Reachable cfg s → Reachable cfg (step cfg s e)

/-- A reference configuration used for concrete runs: plain nonempty
content, markdown mode on, not streaming, default voice. -/
def cfg0 : TtsConfig :=
  { content := "hallo wereld".toList, isMarkdown := true,
    isStreaming := false, voice := "alloy" }

/-!
Synthesis relay endpoint (`POST` of the `generate-tts` route)
-/

structure VoiceProfile where
  name : String
  description : String
deriving DecidableEq, Repr

def OPENAI_VOICES : List VoiceProfile :=
  [⟨"alloy", "Alloy - Neutraal en helder"⟩,
   ⟨"echo", "Echo - Mannelijk en kalm"⟩,
   ⟨"fable", "Fable - Brits accent"⟩,
   ⟨"onyx", "Onyx - Diep en krachtig"⟩,
   ⟨"nova", "Nova - Vrouwelijk en warm"⟩,
   ⟨"shimmer", "Shimmer - Zacht en vriendelijk"⟩]

def isValidVoice (voiceName : String) : Bool :=
  OPENAI_VOICES.any (fun v => v.name == voiceName)

/-- A parsed JSON value as far as the handler inspects it. -/
inductive JVal
  | jstr (s : String)
  | jnum (n : Int)
  | jbool (b : Bool)
  | jnull
deriving DecidableEq, Repr

/-- The request body: `text` and `voiceName` fields, `none` meaning the
field is absent (JS `undefined`). -/
structure TtsBody where
  text : Option JVal
  voiceName : Option JVal
deriving DecidableEq, Repr

/-- Outcome of the upstream `openai.audio.speech.create` call. -/
inductive UpstreamOutcome
  | success (audio : List Nat)
  | rateLimited
  | failure (msg : String)
deriving DecidableEq, Repr

/-- The handler's possible responses: a JSON error body with a status, or
the binary audio payload with its Content-Type and Content-Length headers
(HTTP 200). -/
inductive RouteResult
  | jsonError (status : Nat) (errMsg : String)
  | audioOk (data : List Nat) (contentType : String) (contentLength : Nat)
deriving DecidableEq, Repr

/-- Destructuring `const { voiceName = 'alloy' } = body`: the default applies exactly when
the field is absent/undefined. -/
def effectiveVoiceName (v : Option JVal) : JVal :=
  match v with
  | none => .jstr "alloy"
  | some w => w

/-- The `generate-tts` POST handler: key check, body validation
(`!text || typeof text !== 'string'`, length > 4096, `isValidVoice`),
then the upstream call with its catch block. -/
def generateTtsPOST (apiKeyConfigured : Bool) (body : TtsBody)
    (upstream : UpstreamOutcome) : RouteResult :=
  if apiKeyConfigured = false then
    .jsonError 500 "API configuratie ontbreekt. Check Environment Variables."
  else
    match body.text with
    | some (.jstr t) =>
      if t = "" then
        .jsonError 400 "Tekst is vereist en moet een string zijn"
      else if 4096 < t.length then
        .jsonError 400 "Tekst mag maximaal 4.096 karakters bevatten"
      else
        match effectiveVoiceName body.voiceName with
        | .jstr vn =>
          if isValidVoice vn then
            match upstream with
            | .success data => .audioOk data "audio/mpeg" data.length
            | .rateLimited =>
              .jsonError 429 "API quota bereikt. Probeer het later opnieuw."
            | .failure _ =>
              .jsonError 500 "Er is een fout opgetreden bij het genereren van audio"
          else .jsonError 400 "Ongeldige stem"
        | _ => .jsonError 400 "Ongeldige stem"
    | _ => .jsonError 400 "Tekst is vereist en moet een string zijn"

/-- Input validity as the claim describes it: a nonempty string `text` of at
most 4096 characters and a voice name (after defaulting) from the catalog. -/
def validTtsInput (body : TtsBody) : Bool :=
  (match body.text with
   | some (.jstr t) => !(t == "") && decide (t.length ≤ 4096)
   | _ => false) &&
  (match effectiveVoiceName body.voiceName with
   | .jstr vn => isValidVoice vn
   | _ => false)

/-!
Shared lemmas
-/

theorem reachable_fold (cfg : TtsConfig) (evs : List TtsEvent) (s : TtsState)
    (h : Reachable cfg s) : Reachable cfg (evs.foldl (step cfg) s) := by
  induction evs generalizing s with
  | nil => exact h
  | cons e evs ih => exact ih _ (Reachable.step e h)

theorem reachable_run (cfg : TtsConfig) (evs : List TtsEvent) :
    Reachable cfg (run cfg evs) :=
  reachable_fold cfg evs initState Reachable.init

/-- One-step preservation of "while playing or paused an audio handle is
referenced": the only transitions entering `playing`/`paused` are the two
toggle branches of `generateTTS` (both guarded by `audioRef.current`) and
`onplay`/`onpause` events of the live audio, and none of them drops the
handle. -/
theorem step_preserves_session (cfg : TtsConfig) (s : TtsState) (e : TtsEvent)
    (h : (s.status = .playing ∨ s.status = .paused) → s.audioRef.isSome = true)
    (hst : (step cfg s e).status = .playing ∨ (step cfg s e).status = .paused) :
    (step cfg s e).audioRef.isSome = true := by
  cases e with
  | speakClick =>
    simp only [step] at hst ⊢
    by_cases h1 : speakDisabled cfg s = true
    · rw [if_pos h1] at hst ⊢; exact h hst
    · rw [if_neg h1] at hst ⊢
      simp only [generateTTS] at hst ⊢
      by_cases h2 : cfg.isStreaming = true ∨ contentSpeakable cfg = false
      · rw [if_pos h2] at hst ⊢; exact h hst
      · rw [if_neg h2] at hst ⊢
        by_cases h3 : s.status = .playing ∧ s.audioRef.isSome = true
        · rw [if_pos h3] at hst ⊢; simpa using h3.2
        · rw [if_neg h3] at hst ⊢
          by_cases h4 : s.status = .paused ∧ s.audioRef.isSome = true
          · rw [if_pos h4] at hst ⊢; simpa using h4.2
          · rw [if_neg h4] at hst ⊢; simp [startNewTTS] at hst
  | stopClick =>
    simp only [step] at hst ⊢
    by_cases h1 : s.status = .playing ∨ s.status = .paused
    · rw [if_pos h1] at hst; simp [stopTTS] at hst
    · rw [if_neg h1] at hst ⊢; exact h hst
  | fetchOk =>
    simp only [step] at hst ⊢
    by_cases h1 : s.pendingFetch = true
    · rw [if_pos h1] at hst; simp at hst
    · rw [if_neg h1] at hst ⊢; exact h hst
  | fetchFail =>
    simp only [step] at hst ⊢
    by_cases h1 : s.pendingFetch = true
    · rw [if_pos h1] at hst; simp at hst
    · rw [if_neg h1] at hst ⊢; exact h hst
  | playOk =>
    simp only [step] at hst ⊢
    by_cases h1 : s.audioRef.isSome = true
    · rw [if_pos h1] at hst ⊢; simpa using h1
    · rw [if_neg h1] at hst ⊢; exact h hst
  | playRejected =>
    simp only [step] at hst ⊢
    by_cases h1 : s.pendingPlay = true
    · rw [if_pos h1] at hst; simp at hst
    · rw [if_neg h1] at hst ⊢; exact h hst
  | audioEnded =>
    simp only [step] at hst ⊢
    cases hs : s.audioRef with
    | some u => rw [hs] at hst; simp at hst
    | none => rw [hs] at hst ⊢; exact hs ▸ h hst
  | audioError =>
    simp only [step] at hst ⊢
    cases hs : s.audioRef with
    | some u => rw [hs] at hst; simp at hst
    | none => rw [hs] at hst ⊢; exact hs ▸ h hst
  | errorTimerFire =>
    simp only [step] at hst ⊢
    by_cases h1 : 0 < s.timers
    · rw [if_pos h1] at hst; simp at hst
    · rw [if_neg h1] at hst ⊢; exact h hst

/-- The invariant over all reachable states. -/
theorem reachable_session_of_playing_paused {cfg : TtsConfig} {s : TtsState}
    (h : Reachable cfg s)
    (hst : s.status = .playing ∨ s.status = .paused) :
    s.audioRef.isSome = true := by
  induction h with
  | init => simp [initState] at hst
  | step e _ ih => exact step_preserves_session _ _ e ih hst

/-!
Claim theorems
-/

/-- C1: the claim says every path that ends an AudioSession — including
`stopTTS` — releases the object URL exactly once. The code's `stopTTS`
pauses and drops the audio handle but never calls `URL.revokeObjectURL`:
after speak → fetch success → playback start → stop, the session is over
(status idle, no handle) yet the one created URL was revoked zero times. -/
theorem stopTTS_run_releases_no_handle :
    (run cfg0 [.speakClick, .fetchOk, .playOk, .stopClick]).status = .idle ∧
    (run cfg0 [.speakClick, .fetchOk, .playOk, .stopClick]).audioRef = none ∧
    (run cfg0 [.speakClick, .fetchOk, .playOk, .stopClick]).created = [0] ∧
    (run cfg0 [.speakClick, .fetchOk, .playOk, .stopClick]).revoked = [] := by
  decide

/-- C2: in every controller state whose status is `generating` or `loading`,
a speak invocation is a no-op — the button's `disabled` guard blocks it — so
no additional request is issued and the status (indeed the whole state) is
unchanged. -/
theorem speak_noop_while_generating_or_loading (cfg : TtsConfig)
    (s : TtsState) (h : s.status = .generating ∨ s.status = .loading) :
    step cfg s .speakClick = s := by
  rcases h with h | h <;> simp [step, speakDisabled, h]

theorem speak_noop_while_generating_witness :
    (run cfg0 [.speakClick]).status = .generating ∧
    step cfg0 (run cfg0 [.speakClick]) .speakClick = run cfg0 [.speakClick] :=
  ⟨by decide,
   speak_noop_while_generating_or_loading cfg0 (run cfg0 [.speakClick])
     (Or.inl (by decide))⟩

/-- C3: if the normalized text is longer than 4096 characters the issued
request's text is its first 4096 characters followed by the truncation
marker (hence of length 4096 plus the marker's length, ending in the
marker); text of length at most 4096 is sent unchanged. -/
theorem speechRequest_truncation_policy (cfg : TtsConfig) :
    (4096 < (normalizedText cfg).length →
      (buildSpeechRequest cfg).text =
        (normalizedText cfg).take 4096 ++ truncationMarker ∧
      (buildSpeechRequest cfg).text.length =
        4096 + truncationMarker.length) ∧
    ((normalizedText cfg).length ≤ 4096 →
      (buildSpeechRequest cfg).text = normalizedText cfg) := by
  constructor
  · intro h
    constructor
    · show limitText (normalizedText cfg) = _
      rw [limitText, if_pos h]
    · show (limitText (normalizedText cfg)).length = _
      rw [limitText, if_pos h]
      simp [List.length_append, List.length_take]
      omega
  · intro h
    show limitText (normalizedText cfg) = _
    rw [limitText, if_neg (by omega)]

def cfgTrunc : TtsConfig :=
  ⟨List.replicate 5000 'a', false, false, "alloy"⟩

theorem speechRequest_truncation_policy_witness :
    4096 < (normalizedText cfgTrunc).length ∧
    (buildSpeechRequest cfgTrunc).text =
      (normalizedText cfgTrunc).take 4096 ++ truncationMarker :=
  ⟨by norm_num [normalizedText, cfgTrunc],
   ((speechRequest_truncation_policy cfgTrunc).1
     (by norm_num [normalizedText, cfgTrunc])).1⟩

/-- C5 counterexample: normalization is not idempotent. On `` `#` hello ``
the inline-code pass produces `# hello`, and a second normalization then
strips the newly exposed header marker, giving `hello`. -/
theorem convertMarkdown_not_idempotent_counterexample :
    convertMarkdownToPlainText
        (convertMarkdownToPlainText ("`#` hello".toList)) ≠
      convertMarkdownToPlainText ("`#` hello".toList) := by
  decide

/-- C5 (amended): on inputs containing headers, emphasis, links, lists and
blockquotes, normalization strips the markup keeping the inner content and
is idempotent on those inputs; a fenced code block, however, is consumed by
the earlier inline-code pass (never becoming the `[Code]` placeholder), and
idempotence does not hold for all strings. -/
theorem convertMarkdown_strips_markup_cases :
    (convertMarkdownToPlainText ("# Title\n\nBody text".toList) =
        "Title Body text".toList ∧
      convertMarkdownToPlainText
          (convertMarkdownToPlainText ("# Title\n\nBody text".toList)) =
        convertMarkdownToPlainText ("# Title\n\nBody text".toList)) ∧
    (convertMarkdownToPlainText ("This is **bold** and *italic*".toList) =
        "This is bold and italic".toList ∧
      convertMarkdownToPlainText
          (convertMarkdownToPlainText
            ("This is **bold** and *italic*".toList)) =
        convertMarkdownToPlainText ("This is **bold** and *italic*".toList)) ∧
    (convertMarkdownToPlainText ("`inline code` here".toList) =
        "inline code here".toList ∧
      convertMarkdownToPlainText
          (convertMarkdownToPlainText ("`inline code` here".toList)) =
        convertMarkdownToPlainText ("`inline code` here".toList)) ∧
    (convertMarkdownToPlainText ("See [docs](https://x.y) now".toList) =
        "See docs now".toList ∧
      convertMarkdownToPlainText
          (convertMarkdownToPlainText ("See [docs](https://x.y) now".toList)) =
        convertMarkdownToPlainText ("See [docs](https://x.y) now".toList)) ∧
    (convertMarkdownToPlainText ("- one\n- two".toList) =
        "• one • two".toList ∧
      convertMarkdownToPlainText
          (convertMarkdownToPlainText ("- one\n- two".toList)) =
        convertMarkdownToPlainText ("- one\n- two".toList)) ∧
    (convertMarkdownToPlainText ("1. first\n2. second".toList) =
        "first second".toList ∧
      convertMarkdownToPlainText
          (convertMarkdownToPlainText ("1. first\n2. second".toList)) =
        convertMarkdownToPlainText ("1. first\n2. second".toList)) ∧
    (convertMarkdownToPlainText ("> quoted words".toList) =
        "quoted words".toList ∧
      convertMarkdownToPlainText
          (convertMarkdownToPlainText ("> quoted words".toList)) =
        convertMarkdownToPlainText ("> quoted words".toList)) ∧
    convertMarkdownToPlainText ("```\ncode\n```".toList) =
      "`` code ``".toList := by
  decide

/-- C6 counterexample: a playback-start rejection (`audio.play()` throwing
into the `catch` of `startNewTTS`) enters `error` and arms the reset timer,
but neither the catch nor the timer clears or revokes the live session: the
handle survives the automatic reset into idle. -/
theorem error_reset_does_not_clear_session_counterexample :
    (run cfg0 [.speakClick, .fetchOk, .playRejected]).status = .error ∧
    (run cfg0 [.speakClick, .fetchOk, .playRejected]).audioRef = some 0 ∧
    (run cfg0 [.speakClick, .fetchOk, .playRejected,
        .errorTimerFire]).status = .idle ∧
    (run cfg0 [.speakClick, .fetchOk, .playRejected,
        .errorTimerFire]).progress = "" ∧
    (run cfg0 [.speakClick, .fetchOk, .playRejected,
        .errorTimerFire]).audioRef = some 0 := by
  decide

/-- C6 (amended): every transition into `error` arms one 3000 ms reset
timer; when a timer fires the status becomes `idle` and the progress
message is cleared (but the timer does not clear a live session); in
particular a relay failure during `generating` drives the status to `error`
and arms the reset. -/
theorem error_transition_schedules_reset :
    errorResetDelayMs = 3000 ∧
    (∀ (cfg : TtsConfig) (s : TtsState) (e : TtsEvent),
      (step cfg s e).status = .error → s.status ≠ .error →
      (step cfg s e).timers = s.timers + 1) ∧
    (∀ (cfg : TtsConfig) (s : TtsState), 0 < s.timers →
      (step cfg s .errorTimerFire).status = .idle ∧
      (step cfg s .errorTimerFire).progress = "" ∧
      (step cfg s .errorTimerFire).timers = s.timers - 1) ∧
    (∀ (cfg : TtsConfig) (s : TtsState),
      s.status = .generating → s.pendingFetch = true →
      (step cfg s .fetchFail).status = .error ∧
      (step cfg s .fetchFail).timers = s.timers + 1) := by
  refine ⟨rfl, ?_, ?_, ?_⟩
  · intro cfg s e h1 h2
    cases e with
    | speakClick =>
      simp only [step] at h1 ⊢
      by_cases hd : speakDisabled cfg s = true
      · rw [if_pos hd] at h1; exact absurd h1 h2
      · rw [if_neg hd] at h1 ⊢
        simp only [generateTTS] at h1 ⊢
        by_cases hg : cfg.isStreaming = true ∨ contentSpeakable cfg = false
        · rw [if_pos hg] at h1; exact absurd h1 h2
        · rw [if_neg hg] at h1 ⊢
          by_cases h3 : s.status = .playing ∧ s.audioRef.isSome = true
          · rw [if_pos h3] at h1; simp at h1
          · rw [if_neg h3] at h1 ⊢
            by_cases h4 : s.status = .paused ∧ s.audioRef.isSome = true
            · rw [if_pos h4] at h1; simp at h1
            · rw [if_neg h4] at h1; simp [startNewTTS] at h1
    | stopClick =>
      simp only [step] at h1 ⊢
      by_cases hd : s.status = .playing ∨ s.status = .paused
      · rw [if_pos hd] at h1; simp [stopTTS] at h1
      · rw [if_neg hd] at h1; exact absurd h1 h2
    | fetchOk =>
      simp only [step] at h1 ⊢
      by_cases hd : s.pendingFetch = true
      · rw [if_pos hd] at h1; simp at h1
      · rw [if_neg hd] at h1; exact absurd h1 h2
    | fetchFail =>
      simp only [step] at h1 ⊢
      by_cases hd : s.pendingFetch = true
      · rw [if_pos hd]
      · rw [if_neg hd] at h1; exact absurd h1 h2
    | playOk =>
      simp only [step] at h1 ⊢
      by_cases hd : s.audioRef.isSome = true
      · rw [if_pos hd] at h1; simp at h1
      · rw [if_neg hd] at h1; exact absurd h1 h2
    | playRejected =>
      simp only [step] at h1 ⊢
      by_cases hd : s.pendingPlay = true
      · rw [if_pos hd]
      · rw [if_neg hd] at h1; exact absurd h1 h2
    | audioEnded =>
      simp only [step] at h1 ⊢
      cases hs : s.audioRef with
      | some u => rw [hs] at h1; simp at h1
      | none => rw [hs] at h1; exact absurd h1 h2
    | audioError =>
      simp only [step] at h1 ⊢
      cases hs : s.audioRef with
      | some u => rfl
      | none => rw [hs] at h1; exact absurd h1 h2
    | errorTimerFire =>
      simp only [step] at h1 ⊢
      by_cases hd : 0 < s.timers
      · rw [if_pos hd] at h1; simp at h1
      · rw [if_neg hd] at h1; exact absurd h1 h2
  · intro cfg s h
    simp only [step]
    rw [if_pos h]
    exact ⟨rfl, rfl, rfl⟩
  · intro cfg s _ hp
    simp only [step]
    rw [if_pos hp]
    exact ⟨rfl, rfl⟩

theorem error_transition_schedules_reset_witness :
    (run cfg0 [.speakClick]).status = .generating ∧
    (step cfg0 (run cfg0 [.speakClick]) .fetchFail).status = .error ∧
    (step cfg0 (run cfg0 [.speakClick]) .fetchFail).timers =
      (run cfg0 [.speakClick]).timers + 1 :=
  ⟨by decide,
   (error_transition_schedules_reset.2.2.2 cfg0 (run cfg0 [.speakClick])
     (by decide) (by decide)).1,
   (error_transition_schedules_reset.2.2.2 cfg0 (run cfg0 [.speakClick])
     (by decide) (by decide)).2⟩

/-- C7 counterexample: after a playback-start rejection and the automatic
reset, the controller is reachable in a state with status `idle` and a live
session handle, refuting "idle implies no AudioSession exists". -/
theorem idle_with_live_session_counterexample :
    (run cfg0 [.speakClick, .fetchOk, .playRejected,
        .errorTimerFire]).status = .idle ∧
    (run cfg0 [.speakClick, .fetchOk, .playRejected,
        .errorTimerFire]).audioRef = some 0 := by
  decide

/-- C7 (amended): in every reachable controller state, status `playing` or
`paused` implies a live audio handle exists. (The converse half of the
claim, "idle implies none", fails: see the counterexample.) -/
theorem playing_or_paused_implies_session (cfg : TtsConfig) (s : TtsState)
    (h : Reachable cfg s)
    (hst : s.status = .playing ∨ s.status = .paused) :
    s.audioRef.isSome = true :=
  reachable_session_of_playing_paused h hst

theorem playing_or_paused_implies_session_witness :
    (run cfg0 [.speakClick, .fetchOk, .playOk]).status = .playing ∧
    (run cfg0 [.speakClick, .fetchOk, .playOk]).audioRef.isSome = true :=
  ⟨by decide,
   playing_or_paused_implies_session cfg0 (run cfg0 [.speakClick, .fetchOk, .playOk])
     (reachable_run cfg0 [.speakClick, .fetchOk, .playOk]) (Or.inl (by decide))⟩

/-- C8: with speakable content and no external streaming, a speak
invocation in a reachable `playing` state pauses (no new request, same
handle) and in a reachable `paused` state resumes (no new request, same
handle); concretely, two speak clicks from idle pass through `generating`
(the second click a guarded no-op), then `loading` and `playing` on the
fetch/play events, and the third and fourth clicks toggle paused/playing
with the request count stuck at 1. -/
theorem speak_toggle_semantics :
    (∀ (cfg : TtsConfig) (s : TtsState),
      cfg.isStreaming = false → contentSpeakable cfg = true →
      Reachable cfg s →
      (s.status = .playing →
        (step cfg s .speakClick).status = .paused ∧
        (step cfg s .speakClick).requests = s.requests ∧
        (step cfg s .speakClick).audioRef = s.audioRef) ∧
      (s.status = .paused →
        (step cfg s .speakClick).status = .playing ∧
        (step cfg s .speakClick).requests = s.requests ∧
        (step cfg s .speakClick).audioRef = s.audioRef)) ∧
    ((run cfg0 [.speakClick]).status = .generating ∧
     (run cfg0 [.speakClick]).requests = 1 ∧
     run cfg0 [.speakClick, .speakClick] = run cfg0 [.speakClick] ∧
     (run cfg0 [.speakClick, .speakClick, .fetchOk]).status = .loading ∧
     (run cfg0 [.speakClick, .speakClick, .fetchOk, .playOk]).status =
       .playing ∧
     (run cfg0 [.speakClick, .speakClick, .fetchOk, .playOk,
         .speakClick]).status = .paused ∧
     (run cfg0 [.speakClick, .speakClick, .fetchOk, .playOk,
         .speakClick]).requests = 1 ∧
     (run cfg0 [.speakClick, .speakClick, .fetchOk, .playOk, .speakClick,
         .speakClick]).status = .playing ∧
     (run cfg0 [.speakClick, .speakClick, .fetchOk, .playOk, .speakClick,
         .speakClick]).requests = 1) := by
  constructor
  · intro cfg s hstr hcont hr
    constructor
    · intro hp
      have ha : s.audioRef.isSome = true :=
        reachable_session_of_playing_paused hr (Or.inl hp)
      simp [step, speakDisabled, hp, hstr, generateTTS, hcont, ha]
    · intro hp
      have ha : s.audioRef.isSome = true :=
        reachable_session_of_playing_paused hr (Or.inr hp)
      simp [step, speakDisabled, hp, hstr, generateTTS, hcont, ha]
  · decide

theorem speak_toggle_semantics_witness :
    (run cfg0 [.speakClick, .speakClick, .fetchOk, .playOk]).status =
      .playing ∧
    (step cfg0 (run cfg0 [.speakClick, .speakClick, .fetchOk, .playOk])
      .speakClick).status = .paused :=
  ⟨by decide,
   ((speak_toggle_semantics.1 cfg0
       (run cfg0 [.speakClick, .speakClick, .fetchOk, .playOk]) rfl
       (by decide)
       (reachable_run cfg0 [.speakClick, .speakClick, .fetchOk, .playOk])).1
     (by decide)).1⟩

/-- C9: the concrete end-to-end example: with markdown mode on, the input
`# Hello\n\nThis is **bold** text.` normalizes to
`Hello This is bold text.`, and the issued request carries that text with
the selected voice `alloy`. -/
theorem markdown_example_end_to_end :
    convertMarkdownToPlainText ("# Hello\n\nThis is **bold** text.".toList) =
      "Hello This is bold text.".toList ∧
    buildSpeechRequest
        ⟨"# Hello\n\nThis is **bold** text.".toList, true, false, "alloy"⟩ =
      ⟨"Hello This is bold text.".toList, "alloy"⟩ := by
  decide

/-- C4: the relay handler's status contract: with credentials unconfigured
any request gets a JSON 500; with credentials configured a JSON 400 is
returned exactly for invalid input (empty/non-string text, text longer than
4096, voice not in the catalog), a JSON 429 when the upstream reports quota
exhaustion, a JSON 500 when the upstream call fails, and on success the
audio payload with Content-Type `audio/mpeg` and Content-Length equal to
the payload's byte length. -/
theorem generateTtsPOST_status_contract (body : TtsBody)
    (up : UpstreamOutcome) :
    (∃ m, generateTtsPOST false body up = .jsonError 500 m) ∧
    ((∃ m, generateTtsPOST true body up = .jsonError 400 m) ↔
      validTtsInput body = false) ∧
    (validTtsInput body = true → up = .rateLimited →
      ∃ m, generateTtsPOST true body up = .jsonError 429 m) ∧
    (validTtsInput body = true → ∀ msg, up = .failure msg →
      ∃ m, generateTtsPOST true body up = .jsonError 500 m) ∧
    (validTtsInput body = true → ∀ d, up = .success d →
      generateTtsPOST true body up = .audioOk d "audio/mpeg" d.length) := by
  obtain ⟨tf, vf⟩ := body
  refine ⟨⟨_, rfl⟩, ?_, ?_, ?_, ?_⟩ <;>
  · match tf with
    | none => simp [generateTtsPOST, validTtsInput]
    | some (.jnum n) => simp [generateTtsPOST, validTtsInput]
    | some (.jbool b) => simp [generateTtsPOST, validTtsInput]
    | some .jnull => simp [generateTtsPOST, validTtsInput]
    | some (.jstr t) =>
      by_cases h1 : t = ""
      · simp [generateTtsPOST, validTtsInput, h1]
      · by_cases h2 : 4096 < t.length
        · simp [generateTtsPOST, validTtsInput, h1, h2, Nat.not_le.mpr h2]
        · match hv : effectiveVoiceName vf with
          | .jnum n => simp [generateTtsPOST, validTtsInput, h1, h2, hv]
          | .jbool b => simp [generateTtsPOST, validTtsInput, h1, h2, hv]
          | .jnull => simp [generateTtsPOST, validTtsInput, h1, h2, hv]
          | .jstr vn =>
            by_cases h3 : isValidVoice vn = true
            · cases up <;>
                simp [generateTtsPOST, validTtsInput, h1, h2, hv, h3,
                  Nat.not_lt.mp h2]
            · have h3f : isValidVoice vn = false := by
                cases hvv : isValidVoice vn
                · rfl
                · exact absurd hvv h3
              simp [generateTtsPOST, validTtsInput, h1, h2, hv, h3f,
                Nat.not_lt.mp h2]

theorem generateTtsPOST_status_contract_witness :
    validTtsInput ⟨some (.jstr "hallo"), none⟩ = true ∧
    generateTtsPOST true ⟨some (.jstr "hallo"), none⟩ (.success [7, 7]) =
      .audioOk [7, 7] "audio/mpeg" 2 :=
  ⟨by decide,
   (generateTtsPOST_status_contract ⟨some (.jstr "hallo"), none⟩
       (.success [7, 7])).2.2.2.2 (by decide) [7, 7] rfl⟩

/-- C10: a body that omits `voiceName` entirely defaults it to `alloy` and,
for otherwise valid text, is never rejected with 400; on upstream success
the synthesis result is returned. -/
theorem voiceName_defaults_to_alloy (t : String) (up : UpstreamOutcome)
    (h1 : t ≠ "") (h2 : t.length ≤ 4096) :
    effectiveVoiceName none = .jstr "alloy" ∧
    (∀ m, generateTtsPOST true ⟨some (.jstr t), none⟩ up ≠
      .jsonError 400 m) ∧
    (∀ d, up = .success d →
      generateTtsPOST true ⟨some (.jstr t), none⟩ up =
        .audioOk d "audio/mpeg" d.length) := by
  refine ⟨rfl, ?_, ?_⟩ <;>
    cases up <;>
      simp [generateTtsPOST, effectiveVoiceName, h1, Nat.not_lt.mpr h2,
        isValidVoice, OPENAI_VOICES]

theorem voiceName_defaults_to_alloy_witness :
    ("hoi" : String) ≠ "" ∧
    generateTtsPOST true ⟨some (.jstr "hoi"), none⟩ (.success [1, 2]) =
      .audioOk [1, 2] "audio/mpeg" 2 :=
  ⟨by decide,
   (voiceName_defaults_to_alloy "hoi" (.success [1, 2]) (by decide)
     (by decide)).2.2 [1, 2] rfl⟩
